import Mathlib

/-!
# Verification of the pipeline forecasting engine (`src/app.py`)

Shallow embedding of the forecasting core of the dashboard:
the business calendar (`is_business_day`, `add_business_days`,
`get_next_business_days`) and the forecast engine / scenario evaluator
(`calculate_conversion_prediction`).

Modelling conventions:
* A calendar date is a `Nat`: the number of days since a fixed epoch that
  falls on a Monday.  Hence `d % 7` is exactly Python's `date.weekday()`
  (Monday = 0, ..., Sunday = 6).
* `datetime.now().date()` is a parameter `today : Nat` of every operation
  that reads the clock, so the engine is the pure function it is in the
  source (same `today` for one whole invocation).
* Python floats carrying probabilities are embedded as `ℚ`; the source's
  `.round(2)` on the summary is display formatting (the spec declares
  rounding a non-normative display concern) and is omitted, so summary
  values are the exact sums.
* Pandas DataFrames are lists of records; `NaN`-able columns are `Option`.
-/

/-- `ETAPAS_FUNIL`: the ordered funnel stages; `"ONB"` is terminal. -/
def ETAPAS_FUNIL : List String := ["SAL", "SQL", "OPP", "BC", "ONB_AGEND", "ONB"]

/-- `is_business_day`: Monday–Friday, i.e. weekday < 5. -/
def is_business_day (date : Nat) : Bool := decide (date % 7 < 5)

/-- One pass of the `while` loop of `add_business_days`: starting from
`date`, step one calendar day at a time until a business day is reached.
At most two consecutive non-business days exist (Saturday, Sunday), so
three candidate days suffice to express the walk. -/
def next_business_day (date : Nat) : Nat :=
  if is_business_day (date + 1) then date + 1
  else if is_business_day (date + 2) then date + 2
  else date + 3

/-- The counting loop of `add_business_days`: cross `n` business days,
one at a time. -/
def add_business_days_go (current_date : Nat) : Nat → Nat
  | 0 => current_date
  | n + 1 => add_business_days_go (next_business_day current_date) n

/-- `add_business_days(start_date, business_days)`.  The source's loop
`while days_added < business_days` runs zero times when `business_days`
is not positive (so a negative count returns `start_date` unchanged),
which `Int.toNat` captures. -/
def add_business_days (start_date : Nat) (business_days : Int) : Nat :=
  add_business_days_go start_date business_days.toNat

/-- `get_next_business_days(num_days)`: the next `num_days` business days
strictly after `today`, ascending. -/
def get_next_business_days (today : Nat) : Nat → List Nat
  | 0 => []
  | n + 1 => next_business_day today :: get_next_business_days (next_business_day today) n

lemma next_business_day_is_business (d : Nat) :
    is_business_day (next_business_day d) = true := by
  unfold next_business_day
  split
  · assumption
  · split
    · assumption
    · rename_i h1 h2
      simp only [is_business_day, decide_eq_true_eq] at *
      omega

lemma next_business_day_gt (d : Nat) : d < next_business_day d := by
  unfold next_business_day
  split
  · omega
  · split <;> omega

lemma le_add_business_days_go (d n : Nat) : d ≤ add_business_days_go d n := by
  induction n generalizing d with
  | zero => simp [add_business_days_go]
  | succ n ih =>
    simp only [add_business_days_go]
    exact le_trans (le_of_lt (next_business_day_gt d)) (ih (next_business_day d))

lemma add_business_days_go_is_business (d n : Nat) (h : 0 < n) :
    is_business_day (add_business_days_go d n) = true := by
  induction n generalizing d with
  | zero => omega
  | succ n ih =>
    simp only [add_business_days_go]
    cases n with
    | zero => simpa [add_business_days_go] using next_business_day_is_business d
    | succ m => exact ih (next_business_day d) (Nat.succ_pos m)

lemma add_business_days_go_gt (d n : Nat) (h : 0 < n) :
    d < add_business_days_go d n := by
  cases n with
  | zero => omega
  | succ n =>
    simp only [add_business_days_go]
    exact lt_of_lt_of_le (next_business_day_gt d) (le_add_business_days_go _ n)

/-- C4 counterexample: `add_business_days` called with the negative count
`-1` does not fail; the loop body never runs and the start date (here day
`0`) is returned normally, contradicting the claim that a negative count
fails fast with an InvalidArgument error. -/
theorem add_business_days_negative_no_error : add_business_days 0 (-1) = 0 := rfl

/-- C4 amended: for every start date and every negative business-day
count, `add_business_days` silently returns the start date unchanged
(the `while days_added < business_days` loop is never entered); no error
of any kind is raised. -/
theorem add_business_days_negative_returns_start (d : Nat) (n : Int) (h : n < 0) :
    add_business_days d n = d := by
  unfold add_business_days
  rw [Int.toNat_of_nonpos (le_of_lt h)]
  rfl

/-- Witness for C4's amended theorem at start date 7, count -3. -/
theorem add_business_days_negative_returns_start_witness :
    add_business_days 7 (-3) = 7 :=
  add_business_days_negative_returns_start 7 (-3) (by decide)

/-- C5 counterexample: day `5` is a Saturday (epoch day 0 is a Monday),
and `add_business_days 5 0` returns day `5` itself — a weekend date —
so the returned date is not "never a Saturday or Sunday" over all
`n ≥ 0`: the `n = 0` case hands back the start date unnormalized. -/
theorem add_business_days_zero_weekend :
    add_business_days 5 0 = 5 ∧ is_business_day 5 = false := ⟨rfl, rfl⟩

/-- C5 amended: for every start date and every strictly positive count
`n > 0`, `add_business_days` returns a date strictly after the start and
that date is a business day (never Saturday or Sunday); for `n = 0` the
start date is returned unchanged, even when it is itself a weekend day. -/
theorem add_business_days_pos_strictly_after_business (d : Nat) (n : Int) (h : 0 < n) :
    d < add_business_days d n ∧ is_business_day (add_business_days d n) = true := by
  have hn : 0 < n.toNat := by omega
  exact ⟨add_business_days_go_gt d _ hn, add_business_days_go_is_business d _ hn⟩

/-- Witness for C5's amended theorem: one business day after Friday
(day 4) is a strictly later business day (in fact Monday, day 7). -/
theorem add_business_days_pos_strictly_after_business_witness :
    4 < add_business_days 4 1 ∧ is_business_day (add_business_days 4 1) = true :=
  add_business_days_pos_strictly_after_business 4 1 (by decide)

/-! ## Data model -/

/-- One row of the deal spreadsheet, after the loader's cleaning: the
columns read by `calculate_conversion_prediction`.  `data_entrada` and
`bdr` can be missing (`pd.notna` / `deal.get(..., 'N/A')` in the source);
`data_prevista_onboarding` is carried along because the spec talks about
it, although the engine never reads it. -/
structure Deal where
  dealname : String
  etapa : String
  data_entrada : Option Nat
  data_prevista_onboarding : Option Nat
  bdr : Option String
deriving DecidableEq, Repr

/-- One element of `test_scenarios`: the dictionary built by the scenario
form (`nome`, `etapa`, `quantidade`, `bdr`, `data_entrada`). -/
structure Scenario where
  nome : String
  etapa : String
  quantidade : Nat
  bdr : String
  data_entrada : Nat
deriving DecidableEq, Repr

/-- The `config` dictionary: `config.get('lead_times', {...})` and
`config.get('conversion_rates', {...})` mean each key may be absent, in
which case the hard-coded default dictionary of the source is used. -/
structure ForecastConfig where
  lead_times : Option (List (String × Nat))
  conversion_rates : Option (List (String × ℚ))
deriving DecidableEq, Repr

/-- One element appended to `results` inside the engine loop. -/
structure ResultEntry where
  data : Nat
  conversoes_previstas : ℚ
  total_deals : Nat
  tipo : String
deriving DecidableEq, Repr

/-- One element appended to `detailed_results` inside the engine loop. -/
structure DetailRow where
  data : Nat
  deal : String
  etapa_atual : String
  probabilidade : ℚ
  bdr : String
  lead_time : Nat
  tipo : String
deriving DecidableEq, Repr

/-- One row of the summary DataFrame (`groupby('data')` + the derived
weekday columns).  `dia_semana` is the numeric weekday standing for the
source's `strftime('%A')` name; `e_quarta` is `weekday() == 2`. -/
structure SummaryRow where
  data : Nat
  dia_semana : Nat
  e_quarta : Bool
  conversoes_previstas : ℚ
  total_deals : Nat
deriving DecidableEq, Repr

/-- The fallback dictionary of `config.get('lead_times', {...})`. -/
def default_lead_times : List (String × Nat) :=
  [("SAL", 2), ("SQL", 3), ("OPP", 5), ("BC", 7), ("ONB_AGEND", 2), ("ONB", 0)]

/-- The fallback dictionary of `config.get('conversion_rates', {...})`. -/
def default_conversion_rates : List (String × ℚ) :=
  [("SAL", 0.6), ("SQL", 0.7), ("OPP", 0.8), ("BC", 0.9), ("ONB_AGEND", 0.95), ("ONB", 1.0)]

/-- `lead_times.get(stage, 2)`. -/
def lead_get (lead_times : List (String × Nat)) (stage : String) : Nat :=
  (lead_times.lookup stage).getD 2

/-- `conversion_rates.get(stage, 0.5)`. -/
def rate_get (conversion_rates : List (String × ℚ)) (stage : String) : ℚ :=
  (conversion_rates.lookup stage).getD (1 / 2)

/-- `config.get('lead_times', {...})`. -/
def config_lead_times (config : ForecastConfig) : List (String × Nat) :=
  config.lead_times.getD default_lead_times

/-- `config.get('conversion_rates', {...})`. -/
def config_conversion_rates (config : ForecastConfig) : List (String × ℚ) :=
  config.conversion_rates.getD default_conversion_rates

/-- The effective conversion rate the engine uses for a stage under a
given config (explicit entry, else the documented default 0.5). -/
def stage_rate (config : ForecastConfig) (stage : String) : ℚ :=
  rate_get (config_conversion_rates config) stage

/-- The effective lead time the engine uses for a stage under a given
config (explicit entry, else the documented default 2 business days). -/
def stage_lead (config : ForecastConfig) (stage : String) : Nat :=
  lead_get (config_lead_times config) stage

/-- `ETAPAS_FUNIL[i]` as used by the per-deal loop. -/
def stage_at (i : Nat) : String := ETAPAS_FUNIL.getD i ""

/-- `range(current_stage_idx, len(ETAPAS_FUNIL)-1)`: the indices of the
deal's current stage through the penultimate stage. -/
def remaining_stage_idxs (current_stage_idx : Nat) : List Nat :=
  (List.range (ETAPAS_FUNIL.length - 1)).drop current_stage_idx

/-! ## The engine: `calculate_conversion_prediction`

The per-deal (and per-scenario) loop body appends at most one entry to
`results` and the matching rows to `detailed_results`; the bodies are
split into one definition per list. -/

/-- What one existing deal appends to `results`: skip deals outside the
funnel or already in `'ONB'`; anchor at `max(today, data_entrada)`
(missing `data_entrada` means `today`); multiply the conversion rates and
sum the lead times of all stages from the current one through the
penultimate one; keep the contribution only when the conversion date is
one of the next 15 business days. -/
def deal_contribution (today : Nat) (lead_times : List (String × Nat))
    (conversion_rates : List (String × ℚ)) (next_days : List Nat) (deal : Deal) :
    List ResultEntry :=
  if deal.etapa ∈ ETAPAS_FUNIL ∧ deal.etapa ≠ "ONB" then
    let base_date := match deal.data_entrada with
      | some e => max today e
      | none => today
    let current_stage_idx := ETAPAS_FUNIL.indexOf deal.etapa
    let probability := (remaining_stage_idxs current_stage_idx).foldl
      (fun p i => p * rate_get conversion_rates (stage_at i)) 1
    let total_lead_time := ((remaining_stage_idxs current_stage_idx).map
      (fun i => lead_get lead_times (stage_at i))).sum
    let conversion_date := add_business_days base_date (total_lead_time : Int)
    if conversion_date ∈ next_days then
      [{ data := conversion_date, conversoes_previstas := probability,
         total_deals := 1, tipo := "Existente" }]
    else []
  else []

/-- What one existing deal appends to `detailed_results` (same guard and
computation as `deal_contribution`; only the recorded columns differ). -/
def deal_detail (today : Nat) (lead_times : List (String × Nat))
    (conversion_rates : List (String × ℚ)) (next_days : List Nat) (deal : Deal) :
    List DetailRow :=
  if deal.etapa ∈ ETAPAS_FUNIL ∧ deal.etapa ≠ "ONB" then
    let base_date := match deal.data_entrada with
      | some e => max today e
      | none => today
    let current_stage_idx := ETAPAS_FUNIL.indexOf deal.etapa
    let probability := (remaining_stage_idxs current_stage_idx).foldl
      (fun p i => p * rate_get conversion_rates (stage_at i)) 1
    let total_lead_time := ((remaining_stage_idxs current_stage_idx).map
      (fun i => lead_get lead_times (stage_at i))).sum
    let conversion_date := add_business_days base_date (total_lead_time : Int)
    if conversion_date ∈ next_days then
      [{ data := conversion_date, deal := deal.dealname, etapa_atual := deal.etapa,
         probabilidade := probability, bdr := deal.bdr.getD "N/A",
         lead_time := total_lead_time, tipo := "Existente" }]
    else []
  else []

/-- What one test scenario appends to `results`: same walk as for a deal
but anchored at the scenario's own `data_entrada` (no `max` with today)
and scaled by `quantidade`. -/
def scenario_contribution (_today : Nat) (lead_times : List (String × Nat))
    (conversion_rates : List (String × ℚ)) (next_days : List Nat) (scenario : Scenario) :
    List ResultEntry :=
  if scenario.etapa ∈ ETAPAS_FUNIL ∧ scenario.etapa ≠ "ONB" then
    let current_stage_idx := ETAPAS_FUNIL.indexOf scenario.etapa
    let probability := (remaining_stage_idxs current_stage_idx).foldl
      (fun p i => p * rate_get conversion_rates (stage_at i)) 1
    let total_lead_time := ((remaining_stage_idxs current_stage_idx).map
      (fun i => lead_get lead_times (stage_at i))).sum
    let conversion_date := add_business_days scenario.data_entrada (total_lead_time : Int)
    if conversion_date ∈ next_days then
      [{ data := conversion_date,
         conversoes_previstas := (scenario.quantidade : ℚ) * probability,
         total_deals := scenario.quantidade, tipo := "Cenário" }]
    else []
  else []

/-- What one test scenario appends to `detailed_results`: one row per
simulated deal (`for i in range(quantity)`). -/
def scenario_detail (_today : Nat) (lead_times : List (String × Nat))
    (conversion_rates : List (String × ℚ)) (next_days : List Nat) (scenario : Scenario) :
    List DetailRow :=
  if scenario.etapa ∈ ETAPAS_FUNIL ∧ scenario.etapa ≠ "ONB" then
    let current_stage_idx := ETAPAS_FUNIL.indexOf scenario.etapa
    let probability := (remaining_stage_idxs current_stage_idx).foldl
      (fun p i => p * rate_get conversion_rates (stage_at i)) 1
    let total_lead_time := ((remaining_stage_idxs current_stage_idx).map
      (fun i => lead_get lead_times (stage_at i))).sum
    let conversion_date := add_business_days scenario.data_entrada (total_lead_time : Int)
    if conversion_date ∈ next_days then
      (List.range scenario.quantidade).map (fun i =>
        { data := conversion_date,
          deal := scenario.nome ++ " #" ++ toString (i + 1),
          etapa_atual := scenario.etapa, probabilidade := probability,
          bdr := scenario.bdr, lead_time := total_lead_time, tipo := "Cenário" })
    else []
  else []

/-- The `results` rows produced by the loop over the snapshot's deals. -/
def deals_results (today : Nat) (lead_times : List (String × Nat))
    (conversion_rates : List (String × ℚ)) (next_days : List Nat) (df : List Deal) :
    List ResultEntry :=
  df.flatMap (deal_contribution today lead_times conversion_rates next_days)

/-- The `results` rows produced by the loop over `test_scenarios`
(`if test_scenarios:` skips the loop when the argument is `None`; an
empty list loops zero times, which coincides). -/
def scenarios_results (today : Nat) (lead_times : List (String × Nat))
    (conversion_rates : List (String × ℚ)) (next_days : List Nat)
    (test_scenarios : Option (List Scenario)) : List ResultEntry :=
  match test_scenarios with
  | some scenarios =>
      scenarios.flatMap (scenario_contribution today lead_times conversion_rates next_days)
  | none => []

/-- The full `results` list: deals first, then scenarios, in loop order. -/
def results_of (today : Nat) (lead_times : List (String × Nat))
    (conversion_rates : List (String × ℚ)) (next_days : List Nat) (df : List Deal)
    (test_scenarios : Option (List Scenario)) : List ResultEntry :=
  deals_results today lead_times conversion_rates next_days df ++
    scenarios_results today lead_times conversion_rates next_days test_scenarios

/-- The full `detailed_results` list. -/
def detailed_of (today : Nat) (lead_times : List (String × Nat))
    (conversion_rates : List (String × ℚ)) (next_days : List Nat) (df : List Deal)
    (test_scenarios : Option (List Scenario)) : List DetailRow :=
  df.flatMap (deal_detail today lead_times conversion_rates next_days) ++
    (match test_scenarios with
     | some scenarios =>
         scenarios.flatMap (scenario_detail today lead_times conversion_rates next_days)
     | none => [])

/-- The terminal-stage conversions a list of result rows places on one
day: the `'conversoes_previstas'` sum of the rows grouped on that date. -/
def conv_on (day : Nat) (rows : List ResultEntry) : ℚ :=
  ((rows.filter (fun r => r.data == day)).map (fun r => r.conversoes_previstas)).sum

/-- The `total_deals` sum of the rows grouped on one date. -/
def deals_on (day : Nat) (rows : List ResultEntry) : Nat :=
  ((rows.filter (fun r => r.data == day)).map (fun r => r.total_deals)).sum

/-- `results_df.groupby('data').agg(sum)` plus the derived columns: one
row per distinct date, dates ascending, with the per-date sums.  (The
source's `.round(2)` is display formatting and is not applied.) -/
def make_summary (results : List ResultEntry) : List SummaryRow :=
  let dates := List.insertionSort (· ≤ ·) (results.map (fun r => r.data)).dedup
  dates.map (fun d =>
    { data := d, dia_semana := d % 7, e_quarta := d % 7 == 2,
      conversoes_previstas := conv_on d results, total_deals := deals_on d results })

/-- `calculate_conversion_prediction(df, config, test_scenarios)`:
empty snapshot returns two empty frames at once (before scenarios are
even looked at); otherwise run the per-deal and per-scenario loops and,
when no row was produced, again return two empty frames, else the
grouped summary and the detailed rows. -/
def calculate_conversion_prediction (today : Nat) (df : List Deal)
    (config : ForecastConfig) (test_scenarios : Option (List Scenario)) :
    List SummaryRow × List DetailRow :=
  if df.isEmpty then ([], []) else
    let lead_times := config_lead_times config
    let conversion_rates := config_conversion_rates config
    let next_days := get_next_business_days today 15
    let results := results_of today lead_times conversion_rates next_days df test_scenarios
    let detailed := detailed_of today lead_times conversion_rates next_days df test_scenarios
    if results.isEmpty then ([], [])
    else (make_summary results, detailed)

/-! ## Claims on empty snapshots, terminal deals, the predicted close
date labelled, and invalid scenarios -/

/-- C1 counterexample: on an empty snapshot (with an arbitrary concrete
config) the engine returns two empty frames immediately, so the summary
has 0 rows — not 15 all-zero `DailyProjection`s as the claim states. -/
theorem empty_snapshot_not_fifteen_projections :
    ((calculate_conversion_prediction 0 [] ⟨none, none⟩ none).1).length ≠ 15 := by
  decide

/-- C1 amended: an empty Snapshot is not an error: the engine returns the
empty projection (zero rows, `(pd.DataFrame(), pd.DataFrame())`) — an
empty rather than all-zero projection — for every config, every `today`
and even before looking at any test scenarios. -/
theorem empty_snapshot_empty_projection (today : Nat) (config : ForecastConfig)
    (test_scenarios : Option (List Scenario)) :
    calculate_conversion_prediction today [] config test_scenarios = ([], []) := rfl

/-- C2 counterexample: a snapshot holding exactly one deal whose stage is
the terminal `"ONB"` produces the empty projection: the deal is dropped
by the loop's `continue`, so nothing is ever added to any terminal-stage
bucket, contradicting the claim that such deals contribute to the
terminal bucket on the appropriate day. -/
theorem onb_deal_produces_no_projection :
    calculate_conversion_prediction 0
      [{ dealname := "Deal Fechado 1", etapa := "ONB", data_entrada := some 0,
         data_prevista_onboarding := some 3, bdr := some "X" }] ⟨none, none⟩ none
      = ([], []) := rfl

lemma deal_contribution_onb (today : Nat) (lead_times : List (String × Nat))
    (conversion_rates : List (String × ℚ)) (next_days : List Nat) (d : Deal)
    (h : d.etapa = "ONB") :
    deal_contribution today lead_times conversion_rates next_days d = [] := by
  unfold deal_contribution
  rw [if_neg]
  rintro ⟨-, hne⟩
  exact hne h

lemma deal_detail_onb (today : Nat) (lead_times : List (String × Nat))
    (conversion_rates : List (String × ℚ)) (next_days : List Nat) (d : Deal)
    (h : d.etapa = "ONB") :
    deal_detail today lead_times conversion_rates next_days d = [] := by
  unfold deal_detail
  rw [if_neg]
  rintro ⟨-, hne⟩
  exact hne h

/-- C2 amended: a deal already in the terminal stage `"ONB"` is skipped
by the forecast loop: appending it to a (non-empty) snapshot leaves the
whole output of `calculate_conversion_prediction` unchanged — it
contributes nothing to any bucket on any day. -/
theorem onb_deal_contributes_nothing (today : Nat) (df : List Deal)
    (config : ForecastConfig) (test_scenarios : Option (List Scenario)) (d : Deal)
    (hdf : df ≠ []) (h : d.etapa = "ONB") :
    calculate_conversion_prediction today (df ++ [d]) config test_scenarios =
      calculate_conversion_prediction today df config test_scenarios := by
  have h1 : (df ++ [d]).isEmpty = false := by
    cases df with
    | nil => exact absurd rfl hdf
    | cons a l => rfl
  have h2 : df.isEmpty = false := by
    cases df with
    | nil => exact absurd rfl hdf
    | cons a l => rfl
  have hres : ∀ lt cr nd ts, results_of today lt cr nd (df ++ [d]) ts =
      results_of today lt cr nd df ts := by
    intro lt cr nd ts
    unfold results_of deals_results
    rw [List.flatMap_append]
    simp [deal_contribution_onb today lt cr nd d h]
  have hdet : ∀ lt cr nd ts, detailed_of today lt cr nd (df ++ [d]) ts =
      detailed_of today lt cr nd df ts := by
    intro lt cr nd ts
    unfold detailed_of
    rw [List.flatMap_append]
    simp [deal_detail_onb today lt cr nd d h]
  simp only [calculate_conversion_prediction, h1, h2, hres, hdet]

/-- Witness for C2's amended theorem: appending a closed (`"ONB"`) deal to
a one-deal snapshot leaves the forecast unchanged. -/
theorem onb_deal_contributes_nothing_witness :
    calculate_conversion_prediction 0
      ([{ dealname := "A", etapa := "SAL", data_entrada := some 0,
          data_prevista_onboarding := none, bdr := none }] ++
        [{ dealname := "F", etapa := "ONB", data_entrada := some 0,
           data_prevista_onboarding := none, bdr := none }]) ⟨none, none⟩ none =
    calculate_conversion_prediction 0
      [{ dealname := "A", etapa := "SAL", data_entrada := some 0,
         data_prevista_onboarding := none, bdr := none }] ⟨none, none⟩ none :=
  onb_deal_contributes_nothing 0 _ ⟨none, none⟩ none _ (by decide) rfl

/-- C3 counterexample: a deal in `"ONB_AGEND"` entered today (day 0, a
Monday) with an explicit predicted close date of day 1 — a business day
inside the horizon.  With the default config (`ONB_AGEND` lead time 2)
the engine places its whole contribution on day 2 = `add_business_days
(0, 2)`: the explicit date (day 1) is not used, contradicting the claim
that `predicted_close_date` takes precedence over the lead-time-derived
date. -/
theorem predicted_close_date_not_used :
    ((calculate_conversion_prediction 0
        [{ dealname := "D", etapa := "ONB_AGEND", data_entrada := some 0,
           data_prevista_onboarding := some 1, bdr := none }] ⟨none, none⟩ none).1.map
      (fun r => r.data)) = [2] ∧ (2 : Nat) ≠ 1 := by
  decide

lemma deals_flatMap_update_prevista (today : Nat) (lt : List (String × Nat))
    (cr : List (String × ℚ)) (nd : List Nat) (f : Deal → Option Nat) (df : List Deal) :
    (df.map (fun d => { d with data_prevista_onboarding := f d })).flatMap
        (deal_contribution today lt cr nd) =
      df.flatMap (deal_contribution today lt cr nd) := by
  induction df with
  | nil => rfl
  | cons d rest ih =>
    simp only [List.map_cons, List.flatMap_cons, ih]
    rfl

lemma deal_details_update_prevista (today : Nat) (lt : List (String × Nat))
    (cr : List (String × ℚ)) (nd : List Nat) (f : Deal → Option Nat) (df : List Deal) :
    (df.map (fun d => { d with data_prevista_onboarding := f d })).flatMap
        (deal_detail today lt cr nd) =
      df.flatMap (deal_detail today lt cr nd) := by
  induction df with
  | nil => rfl
  | cons d rest ih =>
    simp only [List.map_cons, List.flatMap_cons, ih]
    rfl

/-- C3 amended: the engine never reads `predicted_close_date`
(`data_prevista_onboarding`): rewriting that field of every deal in the
snapshot — arbitrarily, per deal — leaves the whole output of
`calculate_conversion_prediction` unchanged.  The contribution date is
always the lead-time-derived `add_business_days(max(today, entry_date),
total lead time)`; the explicit date never takes precedence because it
is ignored outright. -/
theorem predicted_close_date_irrelevant (today : Nat) (df : List Deal)
    (config : ForecastConfig) (test_scenarios : Option (List Scenario))
    (f : Deal → Option Nat) :
    calculate_conversion_prediction today
        (df.map (fun d => { d with data_prevista_onboarding := f d })) config
        test_scenarios =
      calculate_conversion_prediction today df config test_scenarios := by
  have hres : ∀ lt cr nd ts,
      results_of today lt cr nd (df.map (fun d => { d with data_prevista_onboarding := f d })) ts =
        results_of today lt cr nd df ts := by
    intro lt cr nd ts
    unfold results_of deals_results
    rw [deals_flatMap_update_prevista]
  have hdet : ∀ lt cr nd ts,
      detailed_of today lt cr nd (df.map (fun d => { d with data_prevista_onboarding := f d })) ts =
        detailed_of today lt cr nd df ts := by
    intro lt cr nd ts
    unfold detailed_of
    rw [deal_details_update_prevista]
  have hEmpty : (df.map (fun d => { d with data_prevista_onboarding := f d })).isEmpty =
      df.isEmpty := by
    cases df <;> rfl
  simp only [calculate_conversion_prediction, hres, hdet, hEmpty]

lemma scenario_contribution_invalid (today : Nat) (lead_times : List (String × Nat))
    (conversion_rates : List (String × ℚ)) (next_days : List Nat) (s : Scenario)
    (h : s.etapa ∉ ETAPAS_FUNIL ∨ s.etapa = "ONB") :
    scenario_contribution today lead_times conversion_rates next_days s = [] := by
  unfold scenario_contribution
  rw [if_neg]
  rintro ⟨hmem, hne⟩
  rcases h with h | h
  · exact h hmem
  · exact hne h

lemma scenario_detail_invalid (today : Nat) (lead_times : List (String × Nat))
    (conversion_rates : List (String × ℚ)) (next_days : List Nat) (s : Scenario)
    (h : s.etapa ∉ ETAPAS_FUNIL ∨ s.etapa = "ONB") :
    scenario_detail today lead_times conversion_rates next_days s = [] := by
  unfold scenario_detail
  rw [if_neg]
  rintro ⟨hmem, hne⟩
  rcases h with h | h
  · exact h hmem
  · exact hne h

/-- C10 confirmed: a `ScenarioInput` whose starting stage is the terminal
`"ONB"` or is not one of the configured funnel stages is silently
skipped: appending it to the scenario list leaves the whole output of
`calculate_conversion_prediction` unchanged, and no error is raised (the
function is total and well-defined on it). -/
theorem invalid_scenario_skipped (today : Nat) (df : List Deal) (config : ForecastConfig)
    (scenarios : List Scenario) (scn : Scenario)
    (h : scn.etapa ∉ ETAPAS_FUNIL ∨ scn.etapa = "ONB") :
    calculate_conversion_prediction today df config (some (scenarios ++ [scn])) =
      calculate_conversion_prediction today df config (some scenarios) := by
  have hres : ∀ lt cr nd, results_of today lt cr nd df (some (scenarios ++ [scn])) =
      results_of today lt cr nd df (some scenarios) := by
    intro lt cr nd
    unfold results_of scenarios_results
    simp [List.flatMap_append, scenario_contribution_invalid today lt cr nd scn h]
  have hdet : ∀ lt cr nd, detailed_of today lt cr nd df (some (scenarios ++ [scn])) =
      detailed_of today lt cr nd df (some scenarios) := by
    intro lt cr nd
    unfold detailed_of
    simp [List.flatMap_append, scenario_detail_invalid today lt cr nd scn h]
  simp only [calculate_conversion_prediction, hres, hdet]

/-- Witness for C10: a scenario starting in the terminal stage `"ONB"`
changes nothing when added to an empty scenario list. -/
theorem invalid_scenario_skipped_witness :
    calculate_conversion_prediction 0
      [{ dealname := "A", etapa := "SAL", data_entrada := some 0,
         data_prevista_onboarding := none, bdr := none }] ⟨none, none⟩
      (some ([] ++ [{ nome := "T", etapa := "ONB", quantidade := 5, bdr := "B",
                      data_entrada := 0 }])) =
    calculate_conversion_prediction 0
      [{ dealname := "A", etapa := "SAL", data_entrada := some 0,
         data_prevista_onboarding := none, bdr := none }] ⟨none, none⟩ (some []) :=
  invalid_scenario_skipped 0 _ ⟨none, none⟩ [] _ (Or.inr rfl)

/-! ## Claim C8: missing config entries fall back to rate 0.5 / lead 2 -/

lemma lookup_append_single_of_none {β : Type} (xs : List (String × β)) (s : String)
    (v : β) (h : xs.lookup s = none) (t : String) :
    (xs ++ [(s, v)]).lookup t = if t = s then some v else xs.lookup t := by
  induction xs with
  | nil =>
    by_cases ht : t = s
    · subst ht
      simp [List.lookup]
    · simp [List.lookup, ht, beq_false_of_ne ht]
  | cons p xs ih =>
    obtain ⟨k, b⟩ := p
    by_cases hsk : s = k
    · subst hsk
      simp [List.lookup_cons] at h
    · have h' : xs.lookup s = none := by
        simpa [List.lookup_cons, beq_false_of_ne hsk] using h
      by_cases htk : t = k
      · subst htk
        simp [List.lookup_cons, Ne.symm hsk]
      · simp [List.lookup, htk, beq_false_of_ne htk, ih h']

lemma rate_get_append_of_none (cr : List (String × ℚ)) (s : String)
    (h : cr.lookup s = none) (t : String) :
    rate_get (cr ++ [(s, 1 / 2)]) t = rate_get cr t := by
  unfold rate_get
  rw [lookup_append_single_of_none cr s _ h t]
  by_cases ht : t = s
  · subst ht
    rw [if_pos rfl, h]
    rfl
  · rw [if_neg ht]

lemma lead_get_append_of_none (lt : List (String × Nat)) (s : String)
    (h : lt.lookup s = none) (t : String) :
    lead_get (lt ++ [(s, 2)]) t = lead_get lt t := by
  unfold lead_get
  rw [lookup_append_single_of_none lt s _ h t]
  by_cases ht : t = s
  · subst ht
    rw [if_pos rfl, h]
    rfl
  · rw [if_neg ht]

lemma deal_contribution_congr (today : Nat) (nd : List Nat) (lt lt' : List (String × Nat))
    (cr cr' : List (String × ℚ)) (hl : ∀ t, lead_get lt t = lead_get lt' t)
    (hr : ∀ t, rate_get cr t = rate_get cr' t) (d : Deal) :
    deal_contribution today lt cr nd d = deal_contribution today lt' cr' nd d := by
  unfold deal_contribution
  simp only [hl, hr]

lemma deal_detail_congr (today : Nat) (nd : List Nat) (lt lt' : List (String × Nat))
    (cr cr' : List (String × ℚ)) (hl : ∀ t, lead_get lt t = lead_get lt' t)
    (hr : ∀ t, rate_get cr t = rate_get cr' t) (d : Deal) :
    deal_detail today lt cr nd d = deal_detail today lt' cr' nd d := by
  unfold deal_detail
  simp only [hl, hr]

lemma scenario_contribution_congr (today : Nat) (nd : List Nat) (lt lt' : List (String × Nat))
    (cr cr' : List (String × ℚ)) (hl : ∀ t, lead_get lt t = lead_get lt' t)
    (hr : ∀ t, rate_get cr t = rate_get cr' t) (s : Scenario) :
    scenario_contribution today lt cr nd s = scenario_contribution today lt' cr' nd s := by
  unfold scenario_contribution
  simp only [hl, hr]

lemma scenario_detail_congr (today : Nat) (nd : List Nat) (lt lt' : List (String × Nat))
    (cr cr' : List (String × ℚ)) (hl : ∀ t, lead_get lt t = lead_get lt' t)
    (hr : ∀ t, rate_get cr t = rate_get cr' t) (s : Scenario) :
    scenario_detail today lt cr nd s = scenario_detail today lt' cr' nd s := by
  unfold scenario_detail
  simp only [hl, hr]

lemma results_of_congr (today : Nat) (nd : List Nat) (lt lt' : List (String × Nat))
    (cr cr' : List (String × ℚ)) (df : List Deal) (ts : Option (List Scenario))
    (hl : ∀ t, lead_get lt t = lead_get lt' t)
    (hr : ∀ t, rate_get cr t = rate_get cr' t) :
    results_of today lt cr nd df ts = results_of today lt' cr' nd df ts := by
  unfold results_of deals_results scenarios_results
  rw [funext (deal_contribution_congr today nd lt lt' cr cr' hl hr)]
  cases ts with
  | none => rfl
  | some scenarios =>
    rw [funext (scenario_contribution_congr today nd lt lt' cr cr' hl hr)]

lemma detailed_of_congr (today : Nat) (nd : List Nat) (lt lt' : List (String × Nat))
    (cr cr' : List (String × ℚ)) (df : List Deal) (ts : Option (List Scenario))
    (hl : ∀ t, lead_get lt t = lead_get lt' t)
    (hr : ∀ t, rate_get cr t = rate_get cr' t) :
    detailed_of today lt cr nd df ts = detailed_of today lt' cr' nd df ts := by
  unfold detailed_of
  rw [funext (deal_detail_congr today nd lt lt' cr cr' hl hr)]
  cases ts with
  | none => rfl
  | some scenarios =>
    rw [funext (scenario_detail_congr today nd lt lt' cr cr' hl hr)]

/-- C8 confirmed: a funnel stage with no entry in the config gets the
documented defaults — conversion rate 0.5 (`conversion_rates.get(stage,
0.5)`) and lead time 2 business days (`lead_times.get(..., 2)`) — and no
error is ever raised for the missing entry: running the engine on a
config lacking the stage is exactly the same as running it on the config
extended with an explicit `(0.5, 2)` entry for that stage. -/
theorem missing_stage_uses_defaults (today : Nat) (df : List Deal)
    (test_scenarios : Option (List Scenario)) (lt : List (String × Nat))
    (cr : List (String × ℚ)) (s : String) (_hs : s ∈ ETAPAS_FUNIL)
    (hrn : cr.lookup s = none) (hln : lt.lookup s = none) :
    rate_get cr s = 1 / 2 ∧ lead_get lt s = 2 ∧
      calculate_conversion_prediction today df ⟨some lt, some cr⟩ test_scenarios =
        calculate_conversion_prediction today df
          ⟨some (lt ++ [(s, 2)]), some (cr ++ [(s, 1 / 2)])⟩ test_scenarios := by
  refine ⟨by simp [rate_get, hrn], by simp [lead_get, hln], ?_⟩
  have hl : ∀ t, lead_get lt t = lead_get (lt ++ [(s, 2)]) t :=
    fun t => (lead_get_append_of_none lt s hln t).symm
  have hr : ∀ t, rate_get cr t = rate_get (cr ++ [(s, 1 / 2)]) t :=
    fun t => (rate_get_append_of_none cr s hrn t).symm
  simp only [calculate_conversion_prediction, config_lead_times, config_conversion_rates,
    Option.getD_some]
  rw [results_of_congr today (get_next_business_days today 15) lt (lt ++ [(s, 2)]) cr
      (cr ++ [(s, 1 / 2)]) df test_scenarios hl hr,
    detailed_of_congr today (get_next_business_days today 15) lt (lt ++ [(s, 2)]) cr
      (cr ++ [(s, 1 / 2)]) df test_scenarios hl hr]

/-- Witness for C8: the stage `"SQL"` is absent from a config that only
configures `"SAL"`; the engine behaves as if `"SQL"` were configured with
rate 0.5 and lead time 2. -/
theorem missing_stage_uses_defaults_witness :
    rate_get [("SAL", (9 : ℚ) / 10)] "SQL" = 1 / 2 ∧
      lead_get [("SAL", 1)] "SQL" = 2 ∧
      calculate_conversion_prediction 0
          [{ dealname := "A", etapa := "SQL", data_entrada := some 0,
             data_prevista_onboarding := none, bdr := none }]
          ⟨some [("SAL", 1)], some [("SAL", (9 : ℚ) / 10)]⟩ none =
        calculate_conversion_prediction 0
          [{ dealname := "A", etapa := "SQL", data_entrada := some 0,
             data_prevista_onboarding := none, bdr := none }]
          ⟨some ([("SAL", 1)] ++ [("SQL", 2)]),
           some ([("SAL", (9 : ℚ) / 10)] ++ [("SQL", 1 / 2)])⟩ none :=
  missing_stage_uses_defaults 0 _ none [("SAL", 1)] [("SAL", (9 : ℚ) / 10)] "SQL"
    (by decide) (by decide) (by decide)

/-! ## Claims C9 and C7: the exact per-deal / per-scenario contribution

Spec-side formulations of the cascaded probability and lead time, written
as the spec phrases them ("product / sum over every stage from the current
one up to the terminal stage"), to be proved equal to the engine's
index-loop form. -/

/-- The stages from a given stage through the penultimate stage (all of
the funnel from the stage onward, minus the terminal `"ONB"`). -/
def stages_from (stage : String) : List String :=
  (ETAPAS_FUNIL.drop (ETAPAS_FUNIL.indexOf stage)).dropLast

/-- Product of the conversion rates of every stage from `stage` through
the penultimate stage. -/
def chain_rate (conversion_rates : List (String × ℚ)) (stage : String) : ℚ :=
  ((stages_from stage).map (rate_get conversion_rates)).prod

/-- Sum of the lead times of every stage from `stage` through the
penultimate stage. -/
def chain_lead (lead_times : List (String × Nat)) (stage : String) : Nat :=
  ((stages_from stage).map (lead_get lead_times)).sum

lemma remaining_idxs_map_stage_at (stage : String) (hs : stage ∈ ETAPAS_FUNIL) :
    (remaining_stage_idxs (ETAPAS_FUNIL.indexOf stage)).map stage_at =
      stages_from stage := by
  fin_cases hs <;> rfl

lemma foldl_mul_eq_prod {α : Type} (l : List α) (f : α → ℚ) :
    l.foldl (fun p x => p * f x) 1 = (l.map f).prod := by
  rw [List.prod_eq_foldl, List.foldl_map]

lemma probability_eq_chain_rate (cr : List (String × ℚ)) (stage : String)
    (hs : stage ∈ ETAPAS_FUNIL) :
    (remaining_stage_idxs (ETAPAS_FUNIL.indexOf stage)).foldl
        (fun p i => p * rate_get cr (stage_at i)) 1 = chain_rate cr stage := by
  rw [foldl_mul_eq_prod]
  unfold chain_rate
  rw [← remaining_idxs_map_stage_at stage hs, List.map_map]
  rfl

lemma total_lead_eq_chain_lead (lt : List (String × Nat)) (stage : String)
    (hs : stage ∈ ETAPAS_FUNIL) :
    ((remaining_stage_idxs (ETAPAS_FUNIL.indexOf stage)).map
        (fun i => lead_get lt (stage_at i))).sum = chain_lead lt stage := by
  unfold chain_lead
  rw [← remaining_idxs_map_stage_at stage hs, List.map_map]
  rfl

/-- C9 confirmed: a snapshot deal in a non-terminal funnel stage
contributes exactly one result row: its value is the product of the
conversion rates of all stages from its current stage through the
penultimate stage, its single date is `add_business_days(max(today,
entry_date), sum of those stages' lead times)` (a missing `entry_date`
meaning `today`), and the row is dropped entirely when that date falls
outside the forecast horizon `nd`.  No per-stage occupancy row for
intermediate stages exists — `ResultEntry` has no stage field at all —
and the probability mass is never spread across several days. -/
theorem deal_single_dated_contribution (today : Nat) (lt : List (String × Nat))
    (cr : List (String × ℚ)) (nd : List Nat) (df : List Deal) (d : Deal)
    (h1 : d.etapa ∈ ETAPAS_FUNIL) (h2 : d.etapa ≠ "ONB") :
    deals_results today lt cr nd (df ++ [d]) =
      deals_results today lt cr nd df ++
        (if add_business_days (match d.data_entrada with
              | some e => max today e
              | none => today) (chain_lead lt d.etapa : Int) ∈ nd then
          [{ data := add_business_days (match d.data_entrada with
                | some e => max today e
                | none => today) (chain_lead lt d.etapa : Int),
             conversoes_previstas := chain_rate cr d.etapa, total_deals := 1,
             tipo := "Existente" }]
        else []) := by
  unfold deals_results
  rw [List.flatMap_append]
  congr 1
  simp only [List.flatMap_cons, List.flatMap_nil, List.append_nil]
  simp only [deal_contribution]
  rw [if_pos ⟨h1, h2⟩, probability_eq_chain_rate cr d.etapa h1,
    total_lead_eq_chain_lead lt d.etapa h1]

/-- Witness for C9: one `"ONB_AGEND"` deal entered on day 3 (a Thursday),
run with the default config: a single row of probability 0.95 on day 7
(= two business days after day 3). -/
theorem deal_single_dated_contribution_witness :
    deals_results 0 default_lead_times default_conversion_rates
        (get_next_business_days 0 15)
        ([] ++ [{ dealname := "W", etapa := "ONB_AGEND", data_entrada := some 3,
                  data_prevista_onboarding := none, bdr := none }]) =
      [{ data := 7, conversoes_previstas := 19 / 20, total_deals := 1,
         tipo := "Existente" }] := by
  rw [deal_single_dated_contribution 0 default_lead_times default_conversion_rates
      (get_next_business_days 0 15) []
      { dealname := "W", etapa := "ONB_AGEND", data_entrada := some 3,
        data_prevista_onboarding := none, bdr := none } (by decide) (by decide)]
  have h1 : stages_from "ONB_AGEND" = ["ONB_AGEND"] := by decide
  have h2 : rate_get default_conversion_rates "ONB_AGEND" = (0.95 : ℚ) := rfl
  have h3 : lead_get default_lead_times "ONB_AGEND" = 2 := rfl
  simp only [deals_results, List.flatMap_nil, List.nil_append, chain_rate, chain_lead, h1,
    List.map_cons, List.map_nil, List.prod_cons, List.prod_nil, List.sum_cons,
    List.sum_nil, h2, h3]
  split
  · simp only [List.cons.injEq, ResultEntry.mk.injEq, and_true]
    exact ⟨by decide, by norm_num⟩
  · rename_i h
    exact absurd (by decide) h

set_option maxRecDepth 4000 in
/-- C7 counterexample: a scenario of 10 deals starting in `"SAL"` today
(day 0) under a config whose `"SAL"` lead time is 30 business days: the
lead-time-derived conversion date falls outside the 15-business-day
horizon, so the evaluator reports nothing at all — no conversions equal
to `quantity × ∏ rates` are placed on any date, contradicting the claim
read over every `ScenarioInput`.  (The snapshot holds one deal with a
stage outside the funnel so that the empty-snapshot early return is not
what produces the empty output.) -/
theorem scenario_outside_horizon_reports_nothing :
    calculate_conversion_prediction 0
      [{ dealname := "S", etapa := "XXX", data_entrada := some 0,
         data_prevista_onboarding := none, bdr := none }]
      ⟨some [("SAL", 30)], none⟩
      (some [{ nome := "T", etapa := "SAL", quantidade := 10, bdr := "B",
               data_entrada := 0 }]) = ([], []) := by
  decide

/-- C7 amended: for a `ScenarioInput` with quantity `Q`, non-terminal
funnel stage `X` and start date `D`, *provided* the lead-time-derived
date `add_business_days(D, sum of the lead times from X through the
penultimate stage)` falls within the forecast horizon, the evaluator adds
exactly one row with conversions `Q × (product of the conversion rates
from X through the penultimate stage)` on that date; otherwise (see the
counterexample) the scenario contributes nothing.  The evaluator computes
no `days_to_first_conversion` output. -/
theorem scenario_terminal_conversions (today : Nat) (lt : List (String × Nat))
    (cr : List (String × ℚ)) (nd : List Nat) (scenarios : List Scenario) (scn : Scenario)
    (h1 : scn.etapa ∈ ETAPAS_FUNIL) (h2 : scn.etapa ≠ "ONB")
    (hin : add_business_days scn.data_entrada (chain_lead lt scn.etapa : Int) ∈ nd) :
    scenarios_results today lt cr nd (some (scenarios ++ [scn])) =
      scenarios_results today lt cr nd (some scenarios) ++
        [{ data := add_business_days scn.data_entrada (chain_lead lt scn.etapa : Int),
           conversoes_previstas := (scn.quantidade : ℚ) * chain_rate cr scn.etapa,
           total_deals := scn.quantidade, tipo := "Cenário" }] := by
  simp only [scenarios_results]
  rw [List.flatMap_append]
  congr 1
  simp only [List.flatMap_cons, List.flatMap_nil, List.append_nil]
  simp only [scenario_contribution]
  rw [if_pos ⟨h1, h2⟩, probability_eq_chain_rate cr scn.etapa h1,
    total_lead_eq_chain_lead lt scn.etapa h1, if_pos hin]

/-- Witness for C7's amended theorem: 10 hypothetical deals in
`"ONB_AGEND"` on day 0 with the default config produce one row of
`10 × 0.95 = 9.5` conversions on day 2. -/
theorem scenario_terminal_conversions_witness :
    scenarios_results 0 default_lead_times default_conversion_rates
        (get_next_business_days 0 15)
        (some ([] ++ [{ nome := "T", etapa := "ONB_AGEND", quantidade := 10,
                        bdr := "B", data_entrada := 0 }])) =
      [{ data := 2, conversoes_previstas := 19 / 2, total_deals := 10,
         tipo := "Cenário" }] := by
  rw [scenario_terminal_conversions 0 default_lead_times default_conversion_rates
      (get_next_business_days 0 15) []
      { nome := "T", etapa := "ONB_AGEND", quantidade := 10, bdr := "B",
        data_entrada := 0 } (by decide) (by decide) (by decide)]
  have h1 : stages_from "ONB_AGEND" = ["ONB_AGEND"] := by decide
  have h2 : rate_get default_conversion_rates "ONB_AGEND" = (0.95 : ℚ) := rfl
  have h3 : lead_get default_lead_times "ONB_AGEND" = 2 := rfl
  simp only [scenarios_results, List.flatMap_nil, List.nil_append, chain_rate, chain_lead,
    h1, List.map_cons, List.map_nil, List.prod_cons, List.prod_nil, List.sum_cons,
    List.sum_nil, h2, h3]
  simp only [List.cons.injEq, ResultEntry.mk.injEq, and_true]
  exact ⟨by decide, by norm_num⟩

/-! ## Claim C6: monotonicity in the conversion rates -/

/-- The engine's projected terminal-stage conversion count on one
forecast day: the per-date sum the summary reports (before its display
rounding), taken over the full `results` list of one invocation. -/
def day_conversions (today : Nat) (df : List Deal) (config : ForecastConfig)
    (test_scenarios : Option (List Scenario)) (day : Nat) : ℚ :=
  conv_on day (results_of today (config_lead_times config)
    (config_conversion_rates config) (get_next_business_days today 15) df test_scenarios)

lemma make_summary_conversoes (results : List ResultEntry) (row : SummaryRow)
    (h : row ∈ make_summary results) :
    row.conversoes_previstas = conv_on row.data results := by
  unfold make_summary at h
  obtain ⟨d, _, rfl⟩ := List.mem_map.1 h
  rfl

lemma conv_on_append (day : Nat) (l m : List ResultEntry) :
    conv_on day (l ++ m) = conv_on day l + conv_on day m := by
  unfold conv_on
  rw [List.filter_append, List.map_append, List.sum_append]

lemma conv_on_flatMap_le {α : Type} (day : Nat) (L : List α)
    (F F' : α → List ResultEntry)
    (h : ∀ x ∈ L, conv_on day (F' x) ≤ conv_on day (F x)) :
    conv_on day (L.flatMap F') ≤ conv_on day (L.flatMap F) := by
  induction L with
  | nil => exact le_refl _
  | cons x xs ih =>
    simp only [List.flatMap_cons, conv_on_append]
    exact add_le_add (h x (List.mem_cons_self x xs))
      (ih (fun y hy => h y (List.mem_cons_of_mem x hy)))

lemma conv_on_singleton (day : Nat) (e : ResultEntry) :
    conv_on day [e] = if e.data == day then e.conversoes_previstas else 0 := by
  unfold conv_on
  by_cases h : e.data == day
  · simp [List.filter, h]
  · simp [List.filter, h]

lemma conv_on_singleton_le (day : Nat) (e e' : ResultEntry)
    (hdata : e'.data = e.data)
    (hconv : e'.conversoes_previstas ≤ e.conversoes_previstas) :
    conv_on day [e'] ≤ conv_on day [e] := by
  rw [conv_on_singleton, conv_on_singleton, hdata]
  by_cases h : e.data == day
  · rw [if_pos h, if_pos h]
    exact hconv
  · rw [if_neg h, if_neg h]

lemma foldl_mul_le {α : Type} (l : List α) (f f' : α → ℚ) :
    (∀ x ∈ l, 0 ≤ f' x ∧ f' x ≤ f x) → ∀ a a' : ℚ, 0 ≤ a' → a' ≤ a →
      0 ≤ l.foldl (fun p x => p * f' x) a' ∧
        l.foldl (fun p x => p * f' x) a' ≤ l.foldl (fun p x => p * f x) a := by
  induction l with
  | nil => exact fun _ a a' h0 hle => ⟨h0, hle⟩
  | cons x xs ih =>
    intro h a a' h0 hle
    simp only [List.foldl_cons]
    obtain ⟨hx0, hxle⟩ := h x (List.mem_cons_self x xs)
    exact ih (fun y hy => h y (List.mem_cons_of_mem x hy)) (a * f x) (a' * f' x)
      (mul_nonneg h0 hx0) (mul_le_mul hle hxle hx0 (le_trans h0 hle))

lemma stage_at_mem_funnel (idx i : Nat) (hi : i ∈ remaining_stage_idxs idx) :
    stage_at i ∈ ETAPAS_FUNIL := by
  have h5 : i < 5 := by
    have := List.mem_range.1 (List.drop_subset _ _ hi)
    simpa using this
  interval_cases i <;> decide

lemma deal_contribution_conv_mono (today : Nat) (lt : List (String × Nat))
    (cr cr' : List (String × ℚ)) (nd : List Nat) (day : Nat)
    (hcr : ∀ s ∈ ETAPAS_FUNIL, 0 ≤ rate_get cr' s ∧ rate_get cr' s ≤ rate_get cr s)
    (d : Deal) :
    conv_on day (deal_contribution today lt cr' nd d) ≤
      conv_on day (deal_contribution today lt cr nd d) := by
  simp only [deal_contribution]
  split_ifs with hg hd
  · apply conv_on_singleton_le
    · rfl
    exact (foldl_mul_le (remaining_stage_idxs (ETAPAS_FUNIL.indexOf d.etapa))
      (fun i => rate_get cr (stage_at i)) (fun i => rate_get cr' (stage_at i))
      (fun i hi => hcr (stage_at i) (stage_at_mem_funnel _ i hi)) 1 1 zero_le_one
      le_rfl).2
  · exact le_refl _
  · exact le_refl _

lemma scenario_contribution_conv_mono (today : Nat) (lt : List (String × Nat))
    (cr cr' : List (String × ℚ)) (nd : List Nat) (day : Nat)
    (hcr : ∀ s ∈ ETAPAS_FUNIL, 0 ≤ rate_get cr' s ∧ rate_get cr' s ≤ rate_get cr s)
    (s : Scenario) :
    conv_on day (scenario_contribution today lt cr' nd s) ≤
      conv_on day (scenario_contribution today lt cr nd s) := by
  simp only [scenario_contribution]
  split_ifs with hg hd
  · apply conv_on_singleton_le
    · rfl
    exact mul_le_mul_of_nonneg_left
      ((foldl_mul_le (remaining_stage_idxs (ETAPAS_FUNIL.indexOf s.etapa))
        (fun i => rate_get cr (stage_at i)) (fun i => rate_get cr' (stage_at i))
        (fun i hi => hcr (stage_at i) (stage_at_mem_funnel _ i hi)) 1 1 zero_le_one
        le_rfl).2) (Nat.cast_nonneg s.quantidade)
  · exact le_refl _
  · exact le_refl _

/-- C6 confirmed: lowering one stage's conversion rate — all other
effective conversion rates and all lead times held fixed, and all rates
nonnegative as probabilities are — never increases the projected
terminal-stage conversion count on any forecast day, for any snapshot
and any test scenarios.  (`stage_rate` is the effective rate the engine
uses for a stage: the config entry, or the default 0.5.) -/
theorem conversion_rate_monotone (today : Nat) (df : List Deal)
    (test_scenarios : Option (List Scenario)) (cfg cfg' : ForecastConfig)
    (s0 : String) (day : Nat)
    (hlead : config_lead_times cfg' = config_lead_times cfg)
    (hnn : ∀ s ∈ ETAPAS_FUNIL, 0 ≤ stage_rate cfg' s)
    (hdec : stage_rate cfg' s0 ≤ stage_rate cfg s0)
    (hfix : ∀ s ∈ ETAPAS_FUNIL, s ≠ s0 → stage_rate cfg' s = stage_rate cfg s) :
    day_conversions today df cfg' test_scenarios day ≤
      day_conversions today df cfg test_scenarios day := by
  have hcr : ∀ s ∈ ETAPAS_FUNIL, 0 ≤ rate_get (config_conversion_rates cfg') s ∧
      rate_get (config_conversion_rates cfg') s ≤
        rate_get (config_conversion_rates cfg) s := by
    intro s hs
    refine ⟨hnn s hs, ?_⟩
    by_cases h : s = s0
    · subst h
      exact hdec
    · exact le_of_eq (hfix s hs h)
  unfold day_conversions results_of
  rw [hlead, conv_on_append, conv_on_append]
  apply add_le_add
  · unfold deals_results
    exact conv_on_flatMap_le day df _ _
      (fun d _ => deal_contribution_conv_mono today _ _ _ _ day hcr d)
  · cases test_scenarios with
    | none => exact le_refl _
    | some scenarios =>
      simp only [scenarios_results]
      exact conv_on_flatMap_le day scenarios _ _
        (fun s _ => scenario_contribution_conv_mono today _ _ _ _ day hcr s)

/-- Witness for C6: lowering the `"ONB_AGEND"` rate from 0.95 to 0.5
(other rates and all lead times unchanged) does not increase the
conversions projected for day 2 from a one-deal snapshot. -/
theorem conversion_rate_monotone_witness :
    day_conversions 0
        [{ dealname := "D", etapa := "ONB_AGEND", data_entrada := some 0,
           data_prevista_onboarding := none, bdr := none }]
        ⟨some default_lead_times,
         some [("SAL", 0.6), ("SQL", 0.7), ("OPP", 0.8), ("BC", 0.9),
               ("ONB_AGEND", 0.5), ("ONB", 1.0)]⟩ none 2 ≤
      day_conversions 0
        [{ dealname := "D", etapa := "ONB_AGEND", data_entrada := some 0,
           data_prevista_onboarding := none, bdr := none }]
        ⟨some default_lead_times, some default_conversion_rates⟩ none 2 :=
  conversion_rate_monotone 0 _ none _ _ "ONB_AGEND" 2 rfl
    (by
      intro s hs
      fin_cases hs <;> first
        | exact (show (0 : ℚ) ≤ 0.6 by norm_num)
        | exact (show (0 : ℚ) ≤ 0.7 by norm_num)
        | exact (show (0 : ℚ) ≤ 0.8 by norm_num)
        | exact (show (0 : ℚ) ≤ 0.9 by norm_num)
        | exact (show (0 : ℚ) ≤ 0.5 by norm_num)
        | exact (show (0 : ℚ) ≤ 1.0 by norm_num))
    (show (0.5 : ℚ) ≤ 0.95 by norm_num)
    (by
      intro s hs hne
      fin_cases hs <;> first
        | rfl
        | exact absurd rfl hne)
